import Mathlib

/-!
Shallow embedding of the bi-directional sync engine of the
Partner Experience Hub (Raintree) repository.

The embedded code is `SyncService` (`backend/src/services/sync.ts`):
the per-record decision logic of `syncOpportunityRecord` /
`syncLeadRecord` (both share the identical direction computation, which
we factor into `decideDirection`), the pass loops `syncOpportunities` /
`syncLeads`, and the summary computed by the `POST /api/sync/detect-changes`
route.

Modelling conventions:
- JS timestamps (`new Date(s).getTime()`) are modelled as `Int` epoch
  values carried directly in mappings and records; the string/date
  round-trip of the source is the identity under this encoding.
- A JS string `||` fallback is modelled by `jsOr`, with the empty string
  standing for `undefined`/missing.
- A remote call that may throw is modelled as `Except String` where the
  error payload is the thrown message; `try`/`catch` becomes a `match`.
- The in-pass `Map` objects (last insertion wins) are modelled by
  association lists with `mapLookup`.
-/

namespace PartnerSync

/-- The `lastSyncSource` tag of a mapping: `'partner' | 'raintree' | 'system'`. -/
inductive SyncSource where
  | partner
  | raintree
  | system
  deriving DecidableEq, Repr

/-- The `syncDirection` tag of a sync result:
`'partner-to-raintree' | 'raintree-to-partner' | 'none' | 'conflict'`. -/
inductive SyncDirection where
  | partnerToRaintree
  | raintreeToPartner
  | noDirection
  | conflict
  deriving DecidableEq, Repr

/-- Which remote side an `update` call targets. -/
inductive Side where
  | partner
  | raintree
  deriving DecidableEq, Repr

/-- The spec's `SyncAction`: output of the conflict-resolution policy. -/
inductive SyncAction where
  | noOp
  | propagatePartnerToRaintree
  | propagateRaintreeToPartner
  deriving DecidableEq, Repr

/-- `SyncMapping` from `sync.ts` (timestamps as epoch `Int`s). -/
structure SyncMapping where
  partnerId : String
  raintreeId : String
  partnerLastModified : Int
  raintreeLastModified : Int
  lastSyncSource : SyncSource
  lastSyncTime : Int
  deriving DecidableEq, Repr

/-- `SyncResult` from `sync.ts`: the `error` field is optional. -/
structure SyncResult where
  recordId : String
  recordName : String
  syncDirection : SyncDirection
  success : Bool
  error : Option String
  timestamp : Int
  deriving DecidableEq, Repr

/-- An observed remote record, as the engine reads it: its id, its
business fields `fields` (kind-specific), and `CreatedDate` /
`LastModifiedDate` (the latter possibly absent, as in the source where
`LastModifiedDate || CreatedDate` is used). -/
structure ObservedRecord (β : Type) where
  id : String
  fields : β
  createdDate : Int
  lastModifiedDate : Option Int
  deriving DecidableEq, Repr

/-- The effective modification time of a record:
`new Date(rec.LastModifiedDate || rec.CreatedDate).getTime()`. -/
def effLM {β : Type} (r : ObservedRecord β) : Int :=
  r.lastModifiedDate.getD r.createdDate

/-- JS string `||`: the empty string models a missing/undefined field. -/
def jsOr (s d : String) : String :=
  if s = "" then d else s

/-- Business fields of an opportunity record used by the sync code. -/
structure OppFields where
  name : String
  stageName : String
  amount : Option Int
  closeDate : String
  deriving DecidableEq, Repr

/-- Business fields of a lead record used by the sync code. -/
structure LeadFields where
  firstName : String
  lastName : String
  company : String
  email : String
  status : String
  deriving DecidableEq, Repr

/-- Payload of an opportunity `update` call (`Name/StageName/Amount/CloseDate`). -/
structure OppPayload where
  name : String
  stageName : String
  amount : Int
  closeDate : String
  deriving DecidableEq, Repr

/-- Payload of a lead `update` call. -/
structure LeadPayload where
  firstName : String
  lastName : String
  company : String
  email : String
  status : String
  deriving DecidableEq, Repr

/-- `recordName` for an opportunity: `partnerOpp.Name || 'Unknown'`. -/
def oppName (f : OppFields) : String :=
  jsOr f.name "Unknown"

/-- `recordName` for a lead:
``${lead.FirstName || ''} ${lead.LastName || ''}`.trim() || 'Unknown'``. -/
def leadName (f : LeadFields) : String :=
  jsOr ((f.firstName ++ " " ++ f.lastName).trim) "Unknown"

/-- Opportunity update payload built from a winning record's fields:
`{ Name, StageName, Amount: x.Amount || 0, CloseDate }`. -/
def oppPayloadOf (f : OppFields) : OppPayload :=
  { name := f.name
    stageName := f.stageName
    amount := f.amount.getD 0
    closeDate := f.closeDate }

/-- Lead update payload built from a winning record's fields:
every field defaulted with `|| ''`, and `Status || 'Open - Not Contacted'`. -/
def leadPayloadOf (f : LeadFields) : LeadPayload :=
  { firstName := f.firstName
    lastName := f.lastName
    company := f.company
    email := f.email
    status := jsOr f.status "Open - Not Contacted" }

/-- Direction computation shared verbatim by `syncOpportunityRecord`
(lines 190–226) and `syncLeadRecord` (lines 301–335): given the two
observed effective modification times, the two stored times and the
mapping's `lastSyncSource`, returns the `syncDirection` and `shouldSync`
variables of the source. -/
def decideDirection (partnerLastModified raintreeLastModified
    storedPartnerModified storedRaintreeModified : Int)
    (lastSyncSource : SyncSource) : SyncDirection × Bool :=
  let partnerHasNewChanges : Bool := decide (partnerLastModified > storedPartnerModified)
  let raintreeHasNewChanges : Bool := decide (raintreeLastModified > storedRaintreeModified)
  if partnerHasNewChanges && raintreeHasNewChanges then
    if partnerLastModified > raintreeLastModified then
      (SyncDirection.partnerToRaintree, true)
    else
      (SyncDirection.raintreeToPartner, true)
  else if partnerHasNewChanges then
    if lastSyncSource ≠ SyncSource.raintree then
      (SyncDirection.partnerToRaintree, true)
    else
      (SyncDirection.noDirection, false)
  else if raintreeHasNewChanges then
    if lastSyncSource ≠ SyncSource.partner then
      (SyncDirection.raintreeToPartner, true)
    else
      (SyncDirection.noDirection, false)
  else
    (SyncDirection.noDirection, false)

/-- The spec's pure policy `decide(mapping, partnerRecord, raintreeRecord)`,
read off the source's direction computation: a propagate action exactly
when `shouldSync` is set. -/
def decideSync {β : Type} (m : SyncMapping)
    (p r : ObservedRecord β) : SyncAction :=
  match decideDirection (effLM p) (effLM r)
      m.partnerLastModified m.raintreeLastModified m.lastSyncSource with
  | (SyncDirection.partnerToRaintree, true) => SyncAction.propagatePartnerToRaintree
  | (SyncDirection.raintreeToPartner, true) => SyncAction.propagateRaintreeToPartner
  | _ => SyncAction.noOp

/-- One record's bi-directional sync, the common body of
`syncOpportunityRecord` and `syncLeadRecord` (the two differ only in the
`recordName` formula `nameOf` and the update payload `payloadOf`).
`updRaintree` models the Raintree-side `update*` call and `updPartner`
the partner-side one; a thrown remote error is an `Except.error` with the
thrown message, caught by the source's `try`/`catch`.  Besides the
`SyncResult`, the model returns the list of `update` calls issued
(side, target id, payload), so that call-count properties are statable. -/
def syncRecord {β π : Type} (nameOf : β → String) (payloadOf : β → π)
    (updRaintree updPartner : String → π → Except String Unit)
    (partnerRec raintreeRec : ObservedRecord β)
    (mapping : SyncMapping) (now : Int) :
    SyncResult × List (Side × String × π) :=
  let partnerLastModified := effLM partnerRec
  let raintreeLastModified := effLM raintreeRec
  let sd := decideDirection partnerLastModified raintreeLastModified
      mapping.partnerLastModified mapping.raintreeLastModified mapping.lastSyncSource
  let syncDirection := sd.1
  let shouldSync := sd.2
  if !shouldSync then
    ({ recordId := mapping.partnerId
       recordName := nameOf partnerRec.fields
       syncDirection := SyncDirection.noDirection
       success := true
       error := Option.none
       timestamp := now }, [])
  else
    match syncDirection with
    | SyncDirection.partnerToRaintree =>
        let payload := payloadOf partnerRec.fields
        match updRaintree mapping.raintreeId payload with
        | Except.ok _ =>
            ({ recordId := mapping.partnerId
               recordName := nameOf partnerRec.fields
               syncDirection := SyncDirection.partnerToRaintree
               success := true
               error := Option.none
               timestamp := now }, [(Side.raintree, mapping.raintreeId, payload)])
        | Except.error e =>
            ({ recordId := mapping.partnerId
               recordName := nameOf partnerRec.fields
               syncDirection := syncDirection
               success := false
               error := Option.some e
               timestamp := now }, [(Side.raintree, mapping.raintreeId, payload)])
    | SyncDirection.raintreeToPartner =>
        let payload := payloadOf raintreeRec.fields
        match updPartner mapping.partnerId payload with
        | Except.ok _ =>
            ({ recordId := mapping.partnerId
               recordName := nameOf partnerRec.fields
               syncDirection := SyncDirection.raintreeToPartner
               success := true
               error := Option.none
               timestamp := now }, [(Side.partner, mapping.partnerId, payload)])
        | Except.error e =>
            ({ recordId := mapping.partnerId
               recordName := nameOf partnerRec.fields
               syncDirection := syncDirection
               success := false
               error := Option.some e
               timestamp := now }, [(Side.partner, mapping.partnerId, payload)])
    | _ =>
        ({ recordId := mapping.partnerId
           recordName := nameOf partnerRec.fields
           syncDirection := SyncDirection.noDirection
           success := true
           error := Option.none
           timestamp := now }, [])

/-- `SyncService.syncOpportunityRecord`. -/
def syncOpportunityRecord
    (updRaintree updPartner : String → OppPayload → Except String Unit)
    (partnerOpp raintreeOpp : ObservedRecord OppFields)
    (mapping : SyncMapping) (now : Int) :
    SyncResult × List (Side × String × OppPayload) :=
  syncRecord oppName oppPayloadOf updRaintree updPartner partnerOpp raintreeOpp mapping now

/-- `SyncService.syncLeadRecord`. -/
def syncLeadRecord
    (updRaintree updPartner : String → LeadPayload → Except String Unit)
    (partnerLead raintreeLead : ObservedRecord LeadFields)
    (mapping : SyncMapping) (now : Int) :
    SyncResult × List (Side × String × LeadPayload) :=
  syncRecord leadName leadPayloadOf updRaintree updPartner partnerLead raintreeLead mapping now

/-- Lookup in a JS `Map` built by successive insertions from an
association list: the last insertion for a key wins. -/
def mapLookup {α : Type} (xs : List (String × α)) (k : String) : Option α :=
  xs.foldl (fun acc e => if e.1 = k then Option.some e.2 else acc) Option.none

/-- The partner-side lookup map
`new Map(partnerRecs.map(rec => [rec.Id, rec]))`. -/
def recLookup {β : Type} (l : List (ObservedRecord β)) (k : String) :
    Option (ObservedRecord β) :=
  mapLookup (l.map (fun o => (o.id, o))) k

/-- Outcome of one guarded Raintree fetch
(`try { const r = await get(id); if (r) set(...) } catch { warn }`):
a record only when the fetch neither threw nor returned null. -/
def rmGet {β : Type} (x : Except String (Option (ObservedRecord β))) :
    Option (ObservedRecord β) :=
  match x with
  | Except.ok (Option.some r) => Option.some r
  | _ => Option.none

/-- The `raintreeOppMap` / `raintreeLeadMap` built by the first loop of a
pass: one entry per mapping whose Raintree fetch succeeded with a record,
keyed by the mapping's partner id. -/
def raintreeMapOf {β : Type}
    (raintreeFetch : String → Except String (Option (ObservedRecord β)))
    (ms : List (String × SyncMapping)) : List (String × ObservedRecord β) :=
  ms.filterMap (fun e => (rmGet (raintreeFetch e.2.raintreeId)).map (fun r => (e.1, r)))

/-- The body of the per-mapping processing loop of a pass: skip (no
result, mapping unchanged) when either side's record is unavailable;
otherwise run the record sync and rewrite the mapping with the freshly
observed timestamps, the direction-derived `lastSyncSource`, and the
result's timestamp as `lastSyncTime` (source lines 93–102 / 162–171). -/
def stepRecord {β π : Type} (nameOf : β → String) (payloadOf : β → π)
    (updRaintree updPartner : String → π → Except String Unit)
    (l : List (ObservedRecord β)) (rmap : List (String × ObservedRecord β))
    (now : Int) (pid : String) (mapping : SyncMapping) :
    Option SyncResult × SyncMapping :=
  match recLookup l pid, mapLookup rmap pid with
  | Option.some partnerRec, Option.some raintreeRec =>
      let res := (syncRecord nameOf payloadOf updRaintree updPartner
          partnerRec raintreeRec mapping now).1
      (Option.some res,
       { mapping with
         partnerLastModified := effLM partnerRec
         raintreeLastModified := effLM raintreeRec
         lastSyncSource :=
           if res.syncDirection = SyncDirection.partnerToRaintree then SyncSource.partner
           else if res.syncDirection = SyncDirection.raintreeToPartner then SyncSource.raintree
           else mapping.lastSyncSource
         lastSyncTime := res.timestamp })
  | _, _ => (Option.none, mapping)

/-- One successful pass over the mapping set (the body of
`syncOpportunities` / `syncLeads` after the partner bulk fetch
succeeded): builds the Raintree lookup map, then processes every mapping,
collecting the pushed results and the updated mapping set. -/
def passRecords {β π : Type} (nameOf : β → String) (payloadOf : β → π)
    (l : List (ObservedRecord β))
    (raintreeFetch : String → Except String (Option (ObservedRecord β)))
    (updRaintree updPartner : String → π → Except String Unit)
    (ms : List (String × SyncMapping)) (now : Int) :
    List SyncResult × List (String × SyncMapping) :=
  let rmap := raintreeMapOf raintreeFetch ms
  (ms.filterMap (fun e =>
      (stepRecord nameOf payloadOf updRaintree updPartner l rmap now e.1 e.2).1),
   ms.map (fun e =>
      (e.1, (stepRecord nameOf payloadOf updRaintree updPartner l rmap now e.1 e.2).2)))

/-- `SyncService.syncOpportunities`: `partnerFetch` is the combined
outcome of `createWithCredentials` + `getOpportunities` (either of which
may throw); per the source's outer `catch { ...; throw error }`, such an
error is rethrown to the caller, while everything after the bulk fetch
returns normally. -/
def syncOpportunities
    (partnerFetch : Except String (List (ObservedRecord OppFields)))
    (raintreeFetch : String → Except String (Option (ObservedRecord OppFields)))
    (updRaintree updPartner : String → OppPayload → Except String Unit)
    (ms : List (String × SyncMapping)) (now : Int) :
    Except String (List SyncResult × List (String × SyncMapping)) :=
  match partnerFetch with
  | Except.error e => Except.error e
  | Except.ok l =>
      Except.ok (passRecords oppName oppPayloadOf l raintreeFetch updRaintree updPartner ms now)

/-- `SyncService.syncLeads`: structurally identical to
`syncOpportunities`, over lead records. -/
def syncLeads
    (partnerFetch : Except String (List (ObservedRecord LeadFields)))
    (raintreeFetch : String → Except String (Option (ObservedRecord LeadFields)))
    (updRaintree updPartner : String → LeadPayload → Except String Unit)
    (ms : List (String × SyncMapping)) (now : Int) :
    Except String (List SyncResult × List (String × SyncMapping)) :=
  match partnerFetch with
  | Except.error e => Except.error e
  | Except.ok l =>
      Except.ok (passRecords leadName leadPayloadOf l raintreeFetch updRaintree updPartner ms now)

/-- The summary computed by `POST /api/sync/detect-changes`
(route lines 93–98) over the concatenated result list. -/
structure Summary where
  total : Nat
  synced : Nat
  failed : Nat
  conflicts : Nat
  deriving DecidableEq, Repr

/-- `summaryOf` mirrors the route's four filters. -/
def summaryOf (rs : List SyncResult) : Summary :=
  { total := rs.length
    synced := (rs.filter (fun r =>
        r.success && !(decide (r.syncDirection = SyncDirection.noDirection)))).length
    failed := (rs.filter (fun r => !r.success)).length
    conflicts := (rs.filter (fun r =>
        decide (r.syncDirection = SyncDirection.conflict))).length }

/-! ### Helper lemmas about the decision logic -/

theorem decideDirection_cases (a b c d : Int) (s : SyncSource) :
    decideDirection a b c d s = (SyncDirection.partnerToRaintree, true) ∨
    decideDirection a b c d s = (SyncDirection.raintreeToPartner, true) ∨
    decideDirection a b c d s = (SyncDirection.noDirection, false) := by
  by_cases h1 : a > c <;> by_cases h2 : b > d <;> by_cases h3 : a > b <;>
    by_cases h4 : s = SyncSource.raintree <;> by_cases h5 : s = SyncSource.partner <;>
    simp [decideDirection, h1, h2, h3, h4, h5]

theorem decideSync_eq_p2r_iff {β : Type} (m : SyncMapping) (p r : ObservedRecord β) :
    decideSync m p r = SyncAction.propagatePartnerToRaintree ↔
    decideDirection (effLM p) (effLM r) m.partnerLastModified m.raintreeLastModified
      m.lastSyncSource = (SyncDirection.partnerToRaintree, true) := by
  rcases decideDirection_cases (effLM p) (effLM r) m.partnerLastModified
      m.raintreeLastModified m.lastSyncSource with h | h | h <;>
    simp [decideSync, h]

theorem decideSync_eq_r2p_iff {β : Type} (m : SyncMapping) (p r : ObservedRecord β) :
    decideSync m p r = SyncAction.propagateRaintreeToPartner ↔
    decideDirection (effLM p) (effLM r) m.partnerLastModified m.raintreeLastModified
      m.lastSyncSource = (SyncDirection.raintreeToPartner, true) := by
  rcases decideDirection_cases (effLM p) (effLM r) m.partnerLastModified
      m.raintreeLastModified m.lastSyncSource with h | h | h <;>
    simp [decideSync, h]

theorem decideSync_eq_noOp_iff {β : Type} (m : SyncMapping) (p r : ObservedRecord β) :
    decideSync m p r = SyncAction.noOp ↔
    decideDirection (effLM p) (effLM r) m.partnerLastModified m.raintreeLastModified
      m.lastSyncSource = (SyncDirection.noDirection, false) := by
  rcases decideDirection_cases (effLM p) (effLM r) m.partnerLastModified
      m.raintreeLastModified m.lastSyncSource with h | h | h <;>
    simp [decideSync, h]

/-! ### Sample concrete values used by witnesses and counterexamples -/

/-- A sample opportunity record whose effective modification time is `t`. -/
def oppRecAt (i : String) (t : Int) : ObservedRecord OppFields :=
  { id := i
    fields := { name := "Acme", stageName := "Open", amount := Option.some 5,
                closeDate := "2024-01-01" }
    createdDate := 0
    lastModifiedDate := Option.some t }

/-- A sample lead record whose effective modification time is `t`. -/
def leadRecAt (i : String) (t : Int) : ObservedRecord LeadFields :=
  { id := i
    fields := { firstName := "Ada", lastName := "Lovelace", company := "ACME",
                email := "a@b.c", status := "Open" }
    createdDate := 0
    lastModifiedDate := Option.some t }

/-- A sample mapping with the given stored timestamps and source tag. -/
def mapAt (sP sR : Int) (src : SyncSource) : SyncMapping :=
  { partnerId := "P1"
    raintreeId := "R1"
    partnerLastModified := sP
    raintreeLastModified := sR
    lastSyncSource := src
    lastSyncTime := 0 }

/-- An always-succeeding remote update stub. -/
def updOk {π : Type} : String → π → Except String Unit := fun _ _ => Except.ok ()

/-- A Raintree-fetch stub that always finds the given record. -/
def rfConst {β : Type} (r : ObservedRecord β) :
    String → Except String (Option (ObservedRecord β)) :=
  fun _ => Except.ok (Option.some r)

/-- A Raintree-fetch stub that always reports not-found. -/
def rfNone {β : Type} : String → Except String (Option (ObservedRecord β)) :=
  fun _ => Except.ok Option.none

/-- A remote update stub that always throws the given message. -/
def updFail {π : Type} (e : String) : String → π → Except String Unit :=
  fun _ _ => Except.error e

/-! ### Characterization of `syncRecord` by decided action -/

theorem syncRecord_of_noOp {β π : Type} (nameOf : β → String) (payloadOf : β → π)
    (uR uP : String → π → Except String Unit) (p r : ObservedRecord β)
    (m : SyncMapping) (now : Int)
    (h : decideSync m p r = SyncAction.noOp) :
    syncRecord nameOf payloadOf uR uP p r m now =
      ({ recordId := m.partnerId, recordName := nameOf p.fields,
         syncDirection := SyncDirection.noDirection, success := true,
         error := Option.none, timestamp := now }, []) := by
  rw [decideSync_eq_noOp_iff] at h
  simp [syncRecord, h]

theorem syncRecord_p2r_ok {β π : Type} (nameOf : β → String) (payloadOf : β → π)
    (uR uP : String → π → Except String Unit) (p r : ObservedRecord β)
    (m : SyncMapping) (now : Int)
    (h : decideSync m p r = SyncAction.propagatePartnerToRaintree)
    (hu : uR m.raintreeId (payloadOf p.fields) = Except.ok ()) :
    syncRecord nameOf payloadOf uR uP p r m now =
      ({ recordId := m.partnerId, recordName := nameOf p.fields,
         syncDirection := SyncDirection.partnerToRaintree, success := true,
         error := Option.none, timestamp := now },
       [(Side.raintree, m.raintreeId, payloadOf p.fields)]) := by
  rw [decideSync_eq_p2r_iff] at h
  simp [syncRecord, h, hu]

theorem syncRecord_p2r_err {β π : Type} (nameOf : β → String) (payloadOf : β → π)
    (uR uP : String → π → Except String Unit) (p r : ObservedRecord β)
    (m : SyncMapping) (now : Int) (e : String)
    (h : decideSync m p r = SyncAction.propagatePartnerToRaintree)
    (hu : uR m.raintreeId (payloadOf p.fields) = Except.error e) :
    syncRecord nameOf payloadOf uR uP p r m now =
      ({ recordId := m.partnerId, recordName := nameOf p.fields,
         syncDirection := SyncDirection.partnerToRaintree, success := false,
         error := Option.some e, timestamp := now },
       [(Side.raintree, m.raintreeId, payloadOf p.fields)]) := by
  rw [decideSync_eq_p2r_iff] at h
  simp [syncRecord, h, hu]

theorem syncRecord_r2p_ok {β π : Type} (nameOf : β → String) (payloadOf : β → π)
    (uR uP : String → π → Except String Unit) (p r : ObservedRecord β)
    (m : SyncMapping) (now : Int)
    (h : decideSync m p r = SyncAction.propagateRaintreeToPartner)
    (hu : uP m.partnerId (payloadOf r.fields) = Except.ok ()) :
    syncRecord nameOf payloadOf uR uP p r m now =
      ({ recordId := m.partnerId, recordName := nameOf p.fields,
         syncDirection := SyncDirection.raintreeToPartner, success := true,
         error := Option.none, timestamp := now },
       [(Side.partner, m.partnerId, payloadOf r.fields)]) := by
  rw [decideSync_eq_r2p_iff] at h
  simp [syncRecord, h, hu]

theorem syncRecord_r2p_err {β π : Type} (nameOf : β → String) (payloadOf : β → π)
    (uR uP : String → π → Except String Unit) (p r : ObservedRecord β)
    (m : SyncMapping) (now : Int) (e : String)
    (h : decideSync m p r = SyncAction.propagateRaintreeToPartner)
    (hu : uP m.partnerId (payloadOf r.fields) = Except.error e) :
    syncRecord nameOf payloadOf uR uP p r m now =
      ({ recordId := m.partnerId, recordName := nameOf p.fields,
         syncDirection := SyncDirection.raintreeToPartner, success := false,
         error := Option.some e, timestamp := now },
       [(Side.partner, m.partnerId, payloadOf r.fields)]) := by
  rw [decideSync_eq_r2p_iff] at h
  simp [syncRecord, h, hu]

theorem syncRecord_id_name {β π : Type} (nameOf : β → String) (payloadOf : β → π)
    (uR uP : String → π → Except String Unit) (p r : ObservedRecord β)
    (m : SyncMapping) (now : Int) :
    (syncRecord nameOf payloadOf uR uP p r m now).1.recordId = m.partnerId ∧
    (syncRecord nameOf payloadOf uR uP p r m now).1.recordName = nameOf p.fields := by
  rcases decideDirection_cases (effLM p) (effLM r) m.partnerLastModified
      m.raintreeLastModified m.lastSyncSource with h | h | h
  · cases hu : uR m.raintreeId (payloadOf p.fields) <;> simp [syncRecord, h, hu]
  · cases hu : uP m.partnerId (payloadOf r.fields) <;> simp [syncRecord, h, hu]
  · simp [syncRecord, h]

theorem syncRecord_dir_ne_conflict {β π : Type} (nameOf : β → String) (payloadOf : β → π)
    (uR uP : String → π → Except String Unit) (p r : ObservedRecord β)
    (m : SyncMapping) (now : Int) :
    (syncRecord nameOf payloadOf uR uP p r m now).1.syncDirection ≠ SyncDirection.conflict := by
  rcases decideDirection_cases (effLM p) (effLM r) m.partnerLastModified
      m.raintreeLastModified m.lastSyncSource with h | h | h
  · cases hu : uR m.raintreeId (payloadOf p.fields) <;> simp [syncRecord, h, hu]
  · cases hu : uP m.partnerId (payloadOf r.fields) <;> simp [syncRecord, h, hu]
  · simp [syncRecord, h]

theorem stepRecord_some_eq {β π : Type} (nameOf : β → String) (payloadOf : β → π)
    (uR uP : String → π → Except String Unit) (l : List (ObservedRecord β))
    (rmap : List (String × ObservedRecord β)) (now : Int) (pid : String)
    (m : SyncMapping) (res : SyncResult)
    (h : (stepRecord nameOf payloadOf uR uP l rmap now pid m).1 = Option.some res) :
    ∃ pr rr, recLookup l pid = Option.some pr ∧ mapLookup rmap pid = Option.some rr ∧
      res = (syncRecord nameOf payloadOf uR uP pr rr m now).1 := by
  unfold stepRecord at h
  cases hp : recLookup l pid with
  | none => rw [hp] at h; simp at h
  | some pr =>
      cases hr : mapLookup rmap pid with
      | none => rw [hp, hr] at h; simp at h
      | some rr =>
          rw [hp, hr] at h
          simp at h
          exact ⟨pr, rr, rfl, rfl, h.symm⟩

theorem passRecords_conflicts_zero {β π : Type} (nameOf : β → String) (payloadOf : β → π)
    (l : List (ObservedRecord β))
    (raintreeFetch : String → Except String (Option (ObservedRecord β)))
    (uR uP : String → π → Except String Unit)
    (ms : List (String × SyncMapping)) (now : Int) :
    (summaryOf (passRecords nameOf payloadOf l raintreeFetch uR uP ms now).1).conflicts = 0 := by
  have hmem : ∀ res ∈ (passRecords nameOf payloadOf l raintreeFetch uR uP ms now).1,
      res.syncDirection ≠ SyncDirection.conflict := by
    intro res hres
    rw [passRecords, List.mem_filterMap] at hres
    obtain ⟨e, _, he⟩ := hres
    obtain ⟨pr, rr, _, _, hr⟩ := stepRecord_some_eq _ _ _ _ _ _ _ _ _ _ he
    rw [hr]
    exact syncRecord_dir_ne_conflict nameOf payloadOf uR uP pr rr e.2 now
  simp only [summaryOf, List.length_eq_zero]
  rw [List.filter_eq_nil_iff]
  intro res hres
  simp [hmem res hres]

/-! ### Claim theorems -/

/-- Shared both-changed case analysis of the policy. -/
theorem both_changed_cases {β : Type} (m : SyncMapping) (p r : ObservedRecord β)
    (hp : effLM p > m.partnerLastModified) (hr : effLM r > m.raintreeLastModified) :
    (effLM p > effLM r → decideSync m p r = SyncAction.propagatePartnerToRaintree) ∧
    (effLM r > effLM p → decideSync m p r = SyncAction.propagateRaintreeToPartner) ∧
    (effLM p = effLM r → decideSync m p r = SyncAction.propagateRaintreeToPartner) := by
  refine ⟨fun hgt => ?_, fun hgt => ?_, fun heq => ?_⟩
  · simp [decideSync, decideDirection, hp, hr, hgt]
  · simp [decideSync, decideDirection, hp, hr, not_lt_of_gt hgt]
  · have hlt : ¬ effLM p > effLM r := by omega
    simp [decideSync, decideDirection, hp, hr, hlt]

/-- C1: when both sides changed (each observed `lastModifiedDate`
strictly above its stored counterpart), `decide` propagates the side
with the strictly later observed `lastModifiedDate`, and an exact tie
resolves to Raintree-to-Partner. -/
theorem conflict_recency_tiebreak {β : Type} (m : SyncMapping) (p r : ObservedRecord β)
    (hp : effLM p > m.partnerLastModified) (hr : effLM r > m.raintreeLastModified) :
    (effLM p > effLM r → decideSync m p r = SyncAction.propagatePartnerToRaintree) ∧
    (effLM r > effLM p → decideSync m p r = SyncAction.propagateRaintreeToPartner) ∧
    (effLM p = effLM r → decideSync m p r = SyncAction.propagateRaintreeToPartner) :=
  both_changed_cases m p r hp hr

/-- Witness for C1 at concrete inputs: partner later wins, raintree
later wins, and a tie goes Raintree-to-Partner. -/
theorem conflict_recency_tiebreak_witness :
    decideSync (mapAt 0 0 SyncSource.system) (oppRecAt "P1" 5) (oppRecAt "R1" 3)
      = SyncAction.propagatePartnerToRaintree ∧
    decideSync (mapAt 0 0 SyncSource.system) (oppRecAt "P1" 3) (oppRecAt "R1" 5)
      = SyncAction.propagateRaintreeToPartner ∧
    decideSync (mapAt 0 0 SyncSource.system) (oppRecAt "P1" 4) (oppRecAt "R1" 4)
      = SyncAction.propagateRaintreeToPartner :=
  ⟨(conflict_recency_tiebreak (mapAt 0 0 SyncSource.system) (oppRecAt "P1" 5)
      (oppRecAt "R1" 3) (by decide) (by decide)).1 (by decide),
   (conflict_recency_tiebreak (mapAt 0 0 SyncSource.system) (oppRecAt "P1" 3)
      (oppRecAt "R1" 5) (by decide) (by decide)).2.1 (by decide),
   (conflict_recency_tiebreak (mapAt 0 0 SyncSource.system) (oppRecAt "P1" 4)
      (oppRecAt "R1" 4) (by decide) (by decide)).2.2 (by decide)⟩

/-- C2: when only one side changed, `decide` propagates that side unless
the mapping's `lastSyncSource` is the opposite side, in which case it is
`NoOp` (anti-ping-pong guard), symmetrically in both directions. -/
theorem single_side_guarded {β : Type} (m : SyncMapping) (p r : ObservedRecord β) :
    (effLM p > m.partnerLastModified → effLM r ≤ m.raintreeLastModified →
      decideSync m p r =
        (if m.lastSyncSource = SyncSource.raintree then SyncAction.noOp
         else SyncAction.propagatePartnerToRaintree)) ∧
    (effLM r > m.raintreeLastModified → effLM p ≤ m.partnerLastModified →
      decideSync m p r =
        (if m.lastSyncSource = SyncSource.partner then SyncAction.noOp
         else SyncAction.propagateRaintreeToPartner)) := by
  constructor
  · intro hp hr
    by_cases hs : m.lastSyncSource = SyncSource.raintree <;>
      simp [decideSync, decideDirection, hp, not_lt.mpr hr, hs]
  · intro hr hp
    by_cases hs : m.lastSyncSource = SyncSource.partner <;>
      simp [decideSync, decideDirection, hr, not_lt.mpr hp, hs]

/-- Witness for C2 at concrete inputs: only-partner-changed propagates
unless guarded, and symmetrically for only-raintree-changed. -/
theorem single_side_guarded_witness :
    decideSync (mapAt 0 0 SyncSource.system) (oppRecAt "P1" 5) (oppRecAt "R1" 0)
      = SyncAction.propagatePartnerToRaintree ∧
    decideSync (mapAt 0 0 SyncSource.raintree) (oppRecAt "P1" 5) (oppRecAt "R1" 0)
      = SyncAction.noOp ∧
    decideSync (mapAt 0 0 SyncSource.system) (oppRecAt "P1" 0) (oppRecAt "R1" 5)
      = SyncAction.propagateRaintreeToPartner ∧
    decideSync (mapAt 0 0 SyncSource.partner) (oppRecAt "P1" 0) (oppRecAt "R1" 5)
      = SyncAction.noOp :=
  ⟨(single_side_guarded (mapAt 0 0 SyncSource.system) (oppRecAt "P1" 5)
      (oppRecAt "R1" 0)).1 (by decide) (by decide),
   (single_side_guarded (mapAt 0 0 SyncSource.raintree) (oppRecAt "P1" 5)
      (oppRecAt "R1" 0)).1 (by decide) (by decide),
   (single_side_guarded (mapAt 0 0 SyncSource.system) (oppRecAt "P1" 0)
      (oppRecAt "R1" 5)).2 (by decide) (by decide),
   (single_side_guarded (mapAt 0 0 SyncSource.partner) (oppRecAt "P1" 0)
      (oppRecAt "R1" 5)).2 (by decide) (by decide)⟩

/-- C6: change detection is strict — a side only counts as changed when
its observed effective `lastModifiedDate` is strictly greater than the
stored one, so whenever both observed times are at or below the stored
values (in particular when they are equal to them, i.e. nothing changed
since the last reconciliation), `decide` yields `NoOp`. -/
theorem strict_change_noop {β : Type} (m : SyncMapping) (p r : ObservedRecord β)
    (hp : effLM p ≤ m.partnerLastModified) (hr : effLM r ≤ m.raintreeLastModified) :
    decideSync m p r = SyncAction.noOp := by
  simp [decideSync, decideDirection, not_lt.mpr hp, not_lt.mpr hr]

/-- Witness for C6: equal observed and stored timestamps yield `NoOp`
(for any `lastSyncSource`, here `partner`). -/
theorem strict_change_noop_witness :
    decideSync (mapAt 7 9 SyncSource.partner) (oppRecAt "P1" 7) (oppRecAt "R1" 9)
      = SyncAction.noOp :=
  strict_change_noop (mapAt 7 9 SyncSource.partner) (oppRecAt "P1" 7) (oppRecAt "R1" 9)
    (by decide) (by decide)

/-- C8: per processed record, the engine issues no `update` call when the
decided action is `NoOp`, and exactly one `update` call — on the
losing-side gateway, with the winning side's payload — when the decided
action is a propagate action (regardless of that call's outcome, which is
why the update stubs `uR`/`uP` are universally quantified). -/
theorem update_call_counts {β π : Type} (nameOf : β → String) (payloadOf : β → π)
    (uR uP : String → π → Except String Unit) (p r : ObservedRecord β)
    (m : SyncMapping) (now : Int) :
    (decideSync m p r = SyncAction.noOp →
      (syncRecord nameOf payloadOf uR uP p r m now).2 = []) ∧
    (decideSync m p r = SyncAction.propagatePartnerToRaintree →
      (syncRecord nameOf payloadOf uR uP p r m now).2
        = [(Side.raintree, m.raintreeId, payloadOf p.fields)]) ∧
    (decideSync m p r = SyncAction.propagateRaintreeToPartner →
      (syncRecord nameOf payloadOf uR uP p r m now).2
        = [(Side.partner, m.partnerId, payloadOf r.fields)]) := by
  refine ⟨fun h => ?_, fun h => ?_, fun h => ?_⟩
  · rw [syncRecord_of_noOp nameOf payloadOf uR uP p r m now h]
  · cases hu : uR m.raintreeId (payloadOf p.fields) with
    | ok u => cases u; rw [syncRecord_p2r_ok nameOf payloadOf uR uP p r m now h hu]
    | error e => rw [syncRecord_p2r_err nameOf payloadOf uR uP p r m now e h hu]
  · cases hu : uP m.partnerId (payloadOf r.fields) with
    | ok u => cases u; rw [syncRecord_r2p_ok nameOf payloadOf uR uP p r m now h hu]
    | error e => rw [syncRecord_r2p_err nameOf payloadOf uR uP p r m now e h hu]

/-- Witness for C8 at concrete inputs: a NoOp issues no call, a
Partner-to-Raintree propagate issues exactly the one Raintree-side call,
and a Raintree-to-Partner propagate exactly the one partner-side call. -/
theorem update_call_counts_witness :
    (syncRecord oppName oppPayloadOf updOk updOk (oppRecAt "P1" 0) (oppRecAt "R1" 0)
        (mapAt 0 0 SyncSource.system) 0).2 = [] ∧
    (syncRecord oppName oppPayloadOf updOk updOk (oppRecAt "P1" 5) (oppRecAt "R1" 0)
        (mapAt 0 0 SyncSource.system) 0).2
      = [(Side.raintree, "R1", oppPayloadOf (oppRecAt "P1" 5).fields)] ∧
    (syncRecord oppName oppPayloadOf updOk updOk (oppRecAt "P1" 0) (oppRecAt "R1" 5)
        (mapAt 0 0 SyncSource.system) 0).2
      = [(Side.partner, "P1", oppPayloadOf (oppRecAt "R1" 5).fields)] :=
  ⟨(update_call_counts oppName oppPayloadOf updOk updOk (oppRecAt "P1" 0)
      (oppRecAt "R1" 0) (mapAt 0 0 SyncSource.system) 0).1 (by decide),
   (update_call_counts oppName oppPayloadOf updOk updOk (oppRecAt "P1" 5)
      (oppRecAt "R1" 0) (mapAt 0 0 SyncSource.system) 0).2.1 (by decide),
   (update_call_counts oppName oppPayloadOf updOk updOk (oppRecAt "P1" 0)
      (oppRecAt "R1" 5) (mapAt 0 0 SyncSource.system) 0).2.2 (by decide)⟩

/-- C10: every `SyncResult` produced by `syncOpportunityRecord` or
`syncLeadRecord` carries `recordId = mapping.partnerId` and a
`recordName` derived from the Partner-side record's fields, for every
decided direction and update outcome. -/
theorem result_identity_partner_side
    (uRo uPo : String → OppPayload → Except String Unit)
    (uRl uPl : String → LeadPayload → Except String Unit)
    (po ro : ObservedRecord OppFields) (pl rl : ObservedRecord LeadFields)
    (m m' : SyncMapping) (now now' : Int) :
    ((syncOpportunityRecord uRo uPo po ro m now).1.recordId = m.partnerId ∧
     (syncOpportunityRecord uRo uPo po ro m now).1.recordName = oppName po.fields) ∧
    ((syncLeadRecord uRl uPl pl rl m' now').1.recordId = m'.partnerId ∧
     (syncLeadRecord uRl uPl pl rl m' now').1.recordName = leadName pl.fields) :=
  ⟨syncRecord_id_name oppName oppPayloadOf uRo uPo po ro m now,
   syncRecord_id_name leadName leadPayloadOf uRl uPl pl rl m' now'⟩

/-- C9 counterexample: a genuine conflict (both observed timestamps
strictly above the stored ones) is resolved into a propagate action, but
the produced `SyncResult` reports the resolved direction
`partner-to-raintree`, not `conflict`, so the route summary's
`conflicts` counter does not tally it. -/
theorem conflict_report_counterexample :
    effLM (oppRecAt "P1" 5) > (mapAt 0 0 SyncSource.system).partnerLastModified ∧
    effLM (oppRecAt "R1" 3) > (mapAt 0 0 SyncSource.system).raintreeLastModified ∧
    (syncOpportunityRecord updOk updOk (oppRecAt "P1" 5) (oppRecAt "R1" 3)
        (mapAt 0 0 SyncSource.system) 0).1.syncDirection
      = SyncDirection.partnerToRaintree ∧
    (summaryOf [(syncOpportunityRecord updOk updOk (oppRecAt "P1" 5) (oppRecAt "R1" 3)
        (mapAt 0 0 SyncSource.system) 0).1]).conflicts = 0 := by
  decide

/-- C9 amended: a conflict is never persisted as a conflict state —
`decide` resolves a both-changed pair immediately into one of the two
propagate actions and the record sync reports the resolved propagate
direction; the direction `conflict` never occurs in a `SyncResult`, so
the route summary's `conflicts` count over any pass's results is zero. -/
theorem conflict_resolved_immediately {β π : Type} (nameOf : β → String)
    (payloadOf : β → π) (uR uP : String → π → Except String Unit)
    (p r : ObservedRecord β) (m : SyncMapping) (now : Int)
    (hp : effLM p > m.partnerLastModified) (hr : effLM r > m.raintreeLastModified) :
    (decideSync m p r = SyncAction.propagatePartnerToRaintree ∨
     decideSync m p r = SyncAction.propagateRaintreeToPartner) ∧
    (syncRecord nameOf payloadOf uR uP p r m now).1.syncDirection ≠ SyncDirection.conflict ∧
    (∀ (l : List (ObservedRecord β))
       (rf : String → Except String (Option (ObservedRecord β)))
       (ms : List (String × SyncMapping)),
       (summaryOf (passRecords nameOf payloadOf l rf uR uP ms now).1).conflicts = 0) := by
  refine ⟨?_, syncRecord_dir_ne_conflict nameOf payloadOf uR uP p r m now,
    fun l rf ms => passRecords_conflicts_zero nameOf payloadOf l rf uR uP ms now⟩
  by_cases hgt : effLM p > effLM r
  · exact Or.inl ((both_changed_cases m p r hp hr).1 hgt)
  · rcases lt_or_eq_of_le (not_lt.mp hgt) with hlt | heq
    · exact Or.inr ((both_changed_cases m p r hp hr).2.1 hlt)
    · exact Or.inr ((both_changed_cases m p r hp hr).2.2 heq)

/-- Witness for C9 (amended) at a concrete both-changed input. -/
theorem conflict_resolved_immediately_witness :
    (decideSync (mapAt 0 0 SyncSource.system) (oppRecAt "P1" 3) (oppRecAt "R1" 5)
        = SyncAction.propagatePartnerToRaintree ∨
     decideSync (mapAt 0 0 SyncSource.system) (oppRecAt "P1" 3) (oppRecAt "R1" 5)
        = SyncAction.propagateRaintreeToPartner) ∧
    (syncRecord oppName oppPayloadOf updOk updOk (oppRecAt "P1" 3) (oppRecAt "R1" 5)
        (mapAt 0 0 SyncSource.system) 7).1.syncDirection ≠ SyncDirection.conflict ∧
    (∀ (l : List (ObservedRecord OppFields))
       (rf : String → Except String (Option (ObservedRecord OppFields)))
       (ms : List (String × SyncMapping)),
       (summaryOf (passRecords oppName oppPayloadOf l rf updOk updOk ms 7).1).conflicts = 0) :=
  conflict_resolved_immediately oppName oppPayloadOf updOk updOk (oppRecAt "P1" 3)
    (oppRecAt "R1" 5) (mapAt 0 0 SyncSource.system) 7 (by decide) (by decide)

/-- C7 counterexample: a guarded NoOp (only the partner side changed but
`lastSyncSource = raintree`) yields the claimed successful direction-none
result, yet the pass overwrites the stored `partnerLastModified` (0) with
the freshly observed value (5), contradicting "does not modify the
mapping's stored timestamps". -/
theorem noop_untouched_counterexample :
    decideSync (mapAt 0 0 SyncSource.raintree) (oppRecAt "P1" 5) (oppRecAt "R1" 0)
      = SyncAction.noOp ∧
    (passRecords oppName oppPayloadOf [oppRecAt "P1" 5] (rfConst (oppRecAt "R1" 0))
        updOk updOk [("P1", mapAt 0 0 SyncSource.raintree)] 99).1
      = [{ recordId := "P1", recordName := "Acme",
           syncDirection := SyncDirection.noDirection, success := true,
           error := Option.none, timestamp := 99 }] ∧
    (passRecords oppName oppPayloadOf [oppRecAt "P1" 5] (rfConst (oppRecAt "R1" 0))
        updOk updOk [("P1", mapAt 0 0 SyncSource.raintree)] 99).2
      = [("P1", { partnerId := "P1", raintreeId := "R1", partnerLastModified := 5,
                  raintreeLastModified := 0, lastSyncSource := SyncSource.raintree,
                  lastSyncTime := 99 })] ∧
    (5 : Int) ≠ (mapAt 0 0 SyncSource.raintree).partnerLastModified := by
  decide

/-- C7 amended: for a processed mapping whose decided action is `NoOp`,
the pass records a successful `SyncResult` with direction `none` and
keeps `lastSyncSource`, but refreshes the stored
`partnerLastModified`/`raintreeLastModified` to the freshly observed
effective timestamps and `lastSyncTime` to the result timestamp. -/
theorem noop_result_and_refresh {β π : Type} (nameOf : β → String) (payloadOf : β → π)
    (uR uP : String → π → Except String Unit) (l : List (ObservedRecord β))
    (rmap : List (String × ObservedRecord β)) (now : Int) (pid : String)
    (m : SyncMapping) (p r : ObservedRecord β)
    (hp : recLookup l pid = Option.some p) (hr : mapLookup rmap pid = Option.some r)
    (hno : decideSync m p r = SyncAction.noOp) :
    stepRecord nameOf payloadOf uR uP l rmap now pid m =
      (Option.some { recordId := m.partnerId, recordName := nameOf p.fields,
                     syncDirection := SyncDirection.noDirection, success := true,
                     error := Option.none, timestamp := now },
       { m with partnerLastModified := effLM p, raintreeLastModified := effLM r,
                lastSyncTime := now }) := by
  unfold stepRecord
  rw [hp, hr]
  simp [syncRecord_of_noOp nameOf payloadOf uR uP p r m now hno]

/-- Witness for C7 (amended) at the concrete guarded-NoOp input. -/
theorem noop_result_and_refresh_witness :
    stepRecord oppName oppPayloadOf updOk updOk [oppRecAt "P1" 5]
        [("P1", oppRecAt "R1" 0)] 99 "P1" (mapAt 0 0 SyncSource.raintree) =
      (Option.some { recordId := "P1", recordName := "Acme",
                     syncDirection := SyncDirection.noDirection, success := true,
                     error := Option.none, timestamp := 99 },
       { partnerId := "P1", raintreeId := "R1", partnerLastModified := 5,
         raintreeLastModified := 0, lastSyncSource := SyncSource.raintree,
         lastSyncTime := 99 }) :=
  noop_result_and_refresh oppName oppPayloadOf updOk updOk [oppRecAt "P1" 5]
    [("P1", oppRecAt "R1" 0)] 99 "P1" (mapAt 0 0 SyncSource.raintree)
    (oppRecAt "P1" 5) (oppRecAt "R1" 0) (by decide) (by decide) (by decide)

/-- C4 counterexample: a mapping whose propagate update throws
"Connection timed out" does get a failed `SyncResult` carrying that
message (that half of the claim holds), but the mapping in the returned
`updatedMappings` is not unchanged: `partnerLastModified` moves 0 → 5 and
`lastSyncSource` moves `system` → `partner`, so the identical decision is
not recomputed next pass. -/
theorem failed_update_mapping_counterexample :
    (passRecords oppName oppPayloadOf [oppRecAt "P1" 5] (rfConst (oppRecAt "R1" 0))
        (updFail "Connection timed out") updOk
        [("P1", mapAt 0 0 SyncSource.system)] 99).1
      = [{ recordId := "P1", recordName := "Acme",
           syncDirection := SyncDirection.partnerToRaintree, success := false,
           error := Option.some "Connection timed out", timestamp := 99 }] ∧
    (passRecords oppName oppPayloadOf [oppRecAt "P1" 5] (rfConst (oppRecAt "R1" 0))
        (updFail "Connection timed out") updOk
        [("P1", mapAt 0 0 SyncSource.system)] 99).2
      = [("P1", { partnerId := "P1", raintreeId := "R1", partnerLastModified := 5,
                  raintreeLastModified := 0, lastSyncSource := SyncSource.partner,
                  lastSyncTime := 99 })] ∧
    (mapAt 0 0 SyncSource.system).partnerLastModified = 0 ∧
    (mapAt 0 0 SyncSource.system).lastSyncSource = SyncSource.system ∧
    (5 : Int) ≠ 0 ∧ SyncSource.partner ≠ SyncSource.system := by
  decide

/-- C4 amended: when the propagate action's remote update call fails,
the pass records a failed `SyncResult` carrying the remote error
message, but the mapping stored in the returned `updatedMappings` is
nevertheless rewritten: both stored timestamps are refreshed to the
freshly observed values and `lastSyncSource` is set to the attempted
direction's winning side, so the same decision is not recomputed on the
next pass. -/
theorem failed_update_result_and_refresh {β π : Type} (nameOf : β → String)
    (payloadOf : β → π) (uR uP : String → π → Except String Unit)
    (l : List (ObservedRecord β)) (rmap : List (String × ObservedRecord β))
    (now : Int) (pid : String) (m : SyncMapping) (p r : ObservedRecord β) (e : String)
    (hp : recLookup l pid = Option.some p) (hr : mapLookup rmap pid = Option.some r) :
    (decideSync m p r = SyncAction.propagatePartnerToRaintree →
      uR m.raintreeId (payloadOf p.fields) = Except.error e →
      stepRecord nameOf payloadOf uR uP l rmap now pid m =
        (Option.some { recordId := m.partnerId, recordName := nameOf p.fields,
                       syncDirection := SyncDirection.partnerToRaintree, success := false,
                       error := Option.some e, timestamp := now },
         { m with partnerLastModified := effLM p, raintreeLastModified := effLM r,
                  lastSyncSource := SyncSource.partner, lastSyncTime := now })) ∧
    (decideSync m p r = SyncAction.propagateRaintreeToPartner →
      uP m.partnerId (payloadOf r.fields) = Except.error e →
      stepRecord nameOf payloadOf uR uP l rmap now pid m =
        (Option.some { recordId := m.partnerId, recordName := nameOf p.fields,
                       syncDirection := SyncDirection.raintreeToPartner, success := false,
                       error := Option.some e, timestamp := now },
         { m with partnerLastModified := effLM p, raintreeLastModified := effLM r,
                  lastSyncSource := SyncSource.raintree, lastSyncTime := now })) := by
  constructor
  · intro hd hu
    unfold stepRecord
    rw [hp, hr]
    simp [syncRecord_p2r_err nameOf payloadOf uR uP p r m now e hd hu]
  · intro hd hu
    unfold stepRecord
    rw [hp, hr]
    simp [syncRecord_r2p_err nameOf payloadOf uR uP p r m now e hd hu]

/-- Witness for C4 (amended) at the concrete failing-update input. -/
theorem failed_update_result_and_refresh_witness :
    stepRecord oppName oppPayloadOf (updFail "Connection timed out") updOk
        [oppRecAt "P1" 5] [("P1", oppRecAt "R1" 0)] 99 "P1"
        (mapAt 0 0 SyncSource.system) =
      (Option.some { recordId := "P1", recordName := "Acme",
                     syncDirection := SyncDirection.partnerToRaintree, success := false,
                     error := Option.some "Connection timed out", timestamp := 99 },
       { partnerId := "P1", raintreeId := "R1", partnerLastModified := 5,
         raintreeLastModified := 0, lastSyncSource := SyncSource.partner,
         lastSyncTime := 99 }) :=
  (failed_update_result_and_refresh oppName oppPayloadOf (updFail "Connection timed out")
      updOk [oppRecAt "P1" 5] [("P1", oppRecAt "R1" 0)] 99 "P1"
      (mapAt 0 0 SyncSource.system) (oppRecAt "P1" 5) (oppRecAt "R1" 0)
      "Connection timed out" (by decide) (by decide)).1 (by decide) rfl

/-- C3 counterexample: a partner-side credential/bulk-fetch failure is
rethrown by `syncOpportunities`/`syncLeads` to the caller instead of
being returned as a result list, contradicting "never raises an
exception to the caller". -/
theorem pass_rethrow_counterexample :
    syncOpportunities (Except.error "INVALID_LOGIN: authentication failure")
        rfNone updOk updOk [("P1", mapAt 0 0 SyncSource.system)] 0
      = Except.error "INVALID_LOGIN: authentication failure" ∧
    syncLeads (Except.error "ECONNRESET") rfNone updOk updOk [] 0
      = Except.error "ECONNRESET" :=
  ⟨rfl, rfl⟩

/-- C3 amended: a pass raises to the caller exactly when the partner-side
credential/bulk-fetch step raised; for every behavior of the per-mapping
Raintree fetches and of the remote updates (including always-throwing
ones), individual-mapping failures never make the pass raise — it returns
the result list and updated mappings, with such failures surfacing only
as skips or failed `SyncResult` entries. -/
theorem pass_raises_iff_partner_fetch_raises
    (pfO : Except String (List (ObservedRecord OppFields)))
    (pfL : Except String (List (ObservedRecord LeadFields)))
    (rfO : String → Except String (Option (ObservedRecord OppFields)))
    (rfL : String → Except String (Option (ObservedRecord LeadFields)))
    (uRo uPo : String → OppPayload → Except String Unit)
    (uRl uPl : String → LeadPayload → Except String Unit)
    (msO msL : List (String × SyncMapping)) (now : Int) :
    (syncOpportunities pfO rfO uRo uPo msO now).isOk = pfO.isOk ∧
    (syncLeads pfL rfL uRl uPl msL now).isOk = pfL.isOk := by
  constructor
  · cases pfO <;> rfl
  · cases pfL <;> rfl

/-! ### Lemmas about the pass-level lookup maps, for the skip property -/

theorem mapLookup_foldl_skip {α : Type} (B : List (String × α)) (k : String)
    (acc : Option α) (hB : ∀ e ∈ B, e.1 ≠ k) :
    B.foldl (fun acc e => if e.1 = k then Option.some e.2 else acc) acc = acc := by
  induction B generalizing acc with
  | nil => rfl
  | cons b bs ih =>
      simp only [List.foldl_cons]
      rw [if_neg (hB b (List.mem_cons_self b bs))]
      exact ih acc (fun e he => hB e (List.mem_cons_of_mem b he))

theorem mapLookup_eq_none {α : Type} (xs : List (String × α)) (k : String)
    (h : ∀ e ∈ xs, e.1 ≠ k) : mapLookup xs k = Option.none :=
  mapLookup_foldl_skip xs k Option.none h

theorem mapLookup_mid {α : Type} (A B C : List (String × α)) (k : String)
    (hB : ∀ e ∈ B, e.1 ≠ k) :
    mapLookup (A ++ (B ++ C)) k = mapLookup (A ++ C) k := by
  unfold mapLookup
  rw [List.foldl_append, List.foldl_append, List.foldl_append,
    mapLookup_foldl_skip B k _ hB]

theorem raintreeMapOf_keys {β : Type}
    (rf : String → Except String (Option (ObservedRecord β)))
    (ms : List (String × SyncMapping)) (k : String)
    (h : ∀ e ∈ ms, e.1 ≠ k) :
    ∀ x ∈ raintreeMapOf rf ms, x.1 ≠ k := by
  intro x hx
  rw [raintreeMapOf, List.mem_filterMap] at hx
  obtain ⟨e, he, hfe⟩ := hx
  rw [Option.map_eq_some'] at hfe
  obtain ⟨rr, _, hrr⟩ := hfe
  rw [← hrr]
  exact h e he

theorem stepRecord_rmap_congr {β π : Type} (nameOf : β → String) (payloadOf : β → π)
    (uR uP : String → π → Except String Unit) (l : List (ObservedRecord β))
    (rmap rmap' : List (String × ObservedRecord β)) (now : Int) (pid : String)
    (m : SyncMapping) (h : mapLookup rmap pid = mapLookup rmap' pid) :
    stepRecord nameOf payloadOf uR uP l rmap now pid m
      = stepRecord nameOf payloadOf uR uP l rmap' now pid m := by
  unfold stepRecord
  rw [h]

/-- C5: a mapping whose Partner or Raintree record is unavailable during
a pass is invisible in the pass output: given a mapping set with the
unavailable entry `(pid, m)` in the middle (and `pid` not used by any
other entry, as `Object.entries` of a record guarantees), the result
list is exactly that of the pass without the entry — the entry
contributes no `SyncResult` — and the updated-mappings list is that of
the pass without the entry with `(pid, m)` reinserted unchanged. -/
theorem skipped_mapping_invisible {β π : Type} (nameOf : β → String)
    (payloadOf : β → π) (l : List (ObservedRecord β))
    (rf : String → Except String (Option (ObservedRecord β)))
    (uR uP : String → π → Except String Unit)
    (ms1 ms2 : List (String × SyncMapping)) (pid : String) (m : SyncMapping)
    (now : Int)
    (hkeys : ∀ e ∈ ms1 ++ ms2, e.1 ≠ pid)
    (hskip : recLookup l pid = Option.none ∨ rmGet (rf m.raintreeId) = Option.none) :
    ∃ U1 U2,
      (passRecords nameOf payloadOf l rf uR uP (ms1 ++ ms2) now).2 = U1 ++ U2 ∧
      U1.length = ms1.length ∧
      (passRecords nameOf payloadOf l rf uR uP (ms1 ++ (pid, m) :: ms2) now).1
        = (passRecords nameOf payloadOf l rf uR uP (ms1 ++ ms2) now).1 ∧
      (passRecords nameOf payloadOf l rf uR uP (ms1 ++ (pid, m) :: ms2) now).2
        = U1 ++ (pid, m) :: U2 := by
  have hkeys1 : ∀ e ∈ ms1, e.1 ≠ pid := fun e he => hkeys e (List.mem_append_left _ he)
  have hkeys2 : ∀ e ∈ ms2, e.1 ≠ pid := fun e he => hkeys e (List.mem_append_right _ he)
  -- the two Raintree lookup maps agree on every key other than `pid`
  have hmid : ∀ k, k ≠ pid →
      mapLookup (raintreeMapOf rf (ms1 ++ (pid, m) :: ms2)) k
        = mapLookup (raintreeMapOf rf (ms1 ++ ms2)) k := by
    intro k hk
    rw [raintreeMapOf, raintreeMapOf, List.filterMap_append, List.filterMap_append,
      List.filterMap_cons]
    cases hfm : rmGet (rf m.raintreeId) with
    | none => simp [hfm]
    | some rr =>
        simp only [hfm, Option.map_some']
        have : (pid, rr) :: (ms2.filterMap fun e =>
            (rmGet (rf e.2.raintreeId)).map (fun r => (e.1, r)))
            = [(pid, rr)] ++ (ms2.filterMap fun e =>
                (rmGet (rf e.2.raintreeId)).map (fun r => (e.1, r))) := rfl
        rw [this]
        exact mapLookup_mid _ [(pid, rr)] _ k
          (by intro x hx; rw [List.mem_singleton] at hx; rw [hx]; exact fun h => hk h.symm)
  -- the inserted entry itself is skipped
  have hstep_entry :
      stepRecord nameOf payloadOf uR uP l (raintreeMapOf rf (ms1 ++ (pid, m) :: ms2))
        now pid m = (Option.none, m) := by
    rcases hskip with hpl | hfm
    · unfold stepRecord
      rw [hpl]
    · have hnone : mapLookup (raintreeMapOf rf (ms1 ++ (pid, m) :: ms2)) pid
          = Option.none := by
        apply mapLookup_eq_none
        intro x hx
        rw [raintreeMapOf, List.mem_filterMap] at hx
        obtain ⟨e, he, hfe⟩ := hx
        rw [Option.map_eq_some'] at hfe
        obtain ⟨rr, hrr, hxe⟩ := hfe
        rw [← hxe]
        rcases List.mem_append.mp he with h1 | h2
        · exact hkeys1 e h1
        · rcases List.mem_cons.mp h2 with h3 | h4
          · exfalso
            rw [h3] at hrr
            rw [hfm] at hrr
            exact Option.noConfusion hrr
          · exact hkeys2 e h4
      unfold stepRecord
      rw [hnone]
      cases recLookup l pid <;> rfl
  -- every other entry's step is unchanged by the insertion
  have hstepc : ∀ e ∈ ms1 ++ ms2,
      stepRecord nameOf payloadOf uR uP l
          (raintreeMapOf rf (ms1 ++ (pid, m) :: ms2)) now e.1 e.2
        = stepRecord nameOf payloadOf uR uP l
          (raintreeMapOf rf (ms1 ++ ms2)) now e.1 e.2 := by
    intro e he
    exact stepRecord_rmap_congr nameOf payloadOf uR uP l _ _ now e.1 e.2
      (hmid e.1 (hkeys e he))
  have hstepc1 : ∀ e ∈ ms1,
      stepRecord nameOf payloadOf uR uP l
          (raintreeMapOf rf (ms1 ++ (pid, m) :: ms2)) now e.1 e.2
        = stepRecord nameOf payloadOf uR uP l
          (raintreeMapOf rf (ms1 ++ ms2)) now e.1 e.2 :=
    fun e he => hstepc e (List.mem_append_left _ he)
  have hstepc2 : ∀ e ∈ ms2,
      stepRecord nameOf payloadOf uR uP l
          (raintreeMapOf rf (ms1 ++ (pid, m) :: ms2)) now e.1 e.2
        = stepRecord nameOf payloadOf uR uP l
          (raintreeMapOf rf (ms1 ++ ms2)) now e.1 e.2 :=
    fun e he => hstepc e (List.mem_append_right _ he)
  refine ⟨ms1.map (fun e =>
      (e.1, (stepRecord nameOf payloadOf uR uP l
        (raintreeMapOf rf (ms1 ++ ms2)) now e.1 e.2).2)),
    ms2.map (fun e =>
      (e.1, (stepRecord nameOf payloadOf uR uP l
        (raintreeMapOf rf (ms1 ++ ms2)) now e.1 e.2).2)), ?_, ?_, ?_, ?_⟩
  · simp only [passRecords, List.map_append]
  · simp only [List.length_map]
  · simp only [passRecords, List.filterMap_append, List.filterMap_cons, hstep_entry]
    rw [List.filterMap_congr (fun e he => congrArg Prod.fst (hstepc1 e he)),
      List.filterMap_congr (fun e he => congrArg Prod.fst (hstepc2 e he))]
  · simp only [passRecords, List.map_append, List.map_cons, hstep_entry]
    rw [List.map_congr_left (fun e he =>
        congrArg (fun s => (e.1, Prod.snd s)) (hstepc1 e he)),
      List.map_congr_left (fun e he =>
        congrArg (fun s => (e.1, Prod.snd s)) (hstepc2 e he))]

/-- Witness for C5: a concrete pass where the single mapping's Raintree
fetch reports not-found produces no results and leaves the mapping
byte-for-byte unchanged in the output. -/
theorem skipped_mapping_invisible_witness :
    ∃ U1 U2,
      (passRecords oppName oppPayloadOf [oppRecAt "P1" 5] rfNone updOk updOk
          ([] ++ []) 0).2 = U1 ++ U2 ∧
      U1.length = ([] : List (String × SyncMapping)).length ∧
      (passRecords oppName oppPayloadOf [oppRecAt "P1" 5] rfNone updOk updOk
          ([] ++ ("P1", mapAt 0 0 SyncSource.system) :: []) 0).1
        = (passRecords oppName oppPayloadOf [oppRecAt "P1" 5] rfNone updOk updOk
          ([] ++ []) 0).1 ∧
      (passRecords oppName oppPayloadOf [oppRecAt "P1" 5] rfNone updOk updOk
          ([] ++ ("P1", mapAt 0 0 SyncSource.system) :: []) 0).2
        = U1 ++ ("P1", mapAt 0 0 SyncSource.system) :: U2 :=
  skipped_mapping_invisible oppName oppPayloadOf [oppRecAt "P1" 5] rfNone updOk updOk
    [] [] "P1" (mapAt 0 0 SyncSource.system) 0
    (by intro e he; exact absurd he (List.not_mem_nil e))
    (Or.inr rfl)

end PartnerSync
